import Mathlib

/-!
# NoCharts aggregation core: a shallow embedding

Shallow embedding of the data-aggregation, caching, rate-limiting and
normalisation logic of the NoCharts browser stock-research app
(`js/utils.js`, `js/api.js`, `js/config.js` (config + data-processing
sections), `js/ui.js` market-cap formatting, and their live variants in
the unnamed source parts).  Timestamps are integer milliseconds
(`Date.now()`), numbers are rationals, fallible operations return
`Except`, and the browser's global mutable state (the cache `Map`, the
rate-limiter counters) is passed explicitly.
-/

namespace NoCharts

/-! ## JavaScript-flavoured string helpers -/

/-- Occurrence of `pat` at the head of `l` (character-wise equality). -/
def leadsWith : List Char → List Char → Bool
  | [], _ => true
  | _ :: _, [] => false
  | p :: ps, c :: cs => p == c && leadsWith ps cs

/-- Number of non-overlapping, left-to-right occurrences of the pattern in the
text, as counted by a JavaScript global regex over a literal pattern.  The
`Nat` argument is the number of characters still covered by the previous
match, within which no new match may start. -/
def countOccsGo (pat : List Char) : Nat → List Char → Nat
  | _, [] => 0
  | Nat.succ k, _ :: cs => countOccsGo pat k cs
  | 0, c :: cs =>
    if leadsWith pat (c :: cs) && pat.length > 0 then
      countOccsGo pat (pat.length - 1) cs + 1
    else
      countOccsGo pat 0 cs

def countOccs (pat text : List Char) : Nat := countOccsGo pat 0 text

/-- ASCII model of `String.prototype.toLowerCase`. -/
def jsToLower (s : String) : String := String.mk (s.toList.map Char.toLower)

/-- ASCII model of `String.prototype.toUpperCase`. -/
def jsToUpper (s : String) : String := String.mk (s.toList.map Char.toUpper)

/-- `String.prototype.trim`: strip whitespace from both ends. -/
def jsTrim (s : String) : String :=
  String.mk
    (((s.toList.dropWhile fun c => c.isWhitespace).reverse.dropWhile
        fun c => c.isWhitespace).reverse)

/-- `text.split(/\s+/)`: split at maximal whitespace runs; a leading (resp.
trailing) whitespace run contributes a leading (resp. trailing) empty token,
exactly as in JavaScript. -/
def jsSplitWsGo (prevWs : Bool) (acc : List Char) : List Char → List String
  | [] => [String.mk acc.reverse]
  | c :: cs =>
    if c.isWhitespace then
      if prevWs then jsSplitWsGo true [] cs
      else String.mk acc.reverse :: jsSplitWsGo true [] cs
    else
      jsSplitWsGo false (c :: acc) cs

def jsSplitWs (s : String) : List String := jsSplitWsGo false [] s.toList

/-- `keywords.toLowerCase().replace(/\s+/g, '_')`: each maximal whitespace run
becomes a single underscore. -/
def jsCollapseWsGo : Bool → List Char → List Char
  | _, [] => []
  | prevWs, c :: cs =>
    if c.isWhitespace then
      if prevWs then jsCollapseWsGo true cs
      else '_' :: jsCollapseWsGo true cs
    else
      c :: jsCollapseWsGo false cs

def jsCollapseWs (s : String) : String := String.mk (jsCollapseWsGo false s.toList)

/-- JavaScript truthiness of an optional string (`undefined`/`''` are falsy). -/
def jsStrTruthy : Option String → Bool
  | none => false
  | some s => s ≠ ""

/-- JavaScript truthiness of an optional number (`undefined`/`null`/`0` falsy). -/
def jsNumTruthy : Option ℚ → Bool
  | none => false
  | some x => x ≠ 0

/-- `v ? parseFloat(v) : null` applied to an already-numeric optional field:
`0`, `null` and `undefined` all map to `null`. -/
def numField : Option ℚ → Option ℚ
  | none => none
  | some x => if x ≠ 0 then some x else none

/-! ## `js/utils.js` — ticker validation and formatting -/

/-- `isValidTicker` (`js/utils.js` 15–28): trim, uppercase, length 1–5, letters
only (`/^[A-Z]+$/`).  ASCII model of `toUpperCase`. -/
def isValidTicker (ticker : String) : Bool :=
  -- `if (!ticker || typeof ticker !== 'string') return false`
  if ticker = "" then false
  else
    let cleanTicker := jsToUpper (jsTrim ticker)
    if cleanTicker.length < 1 || cleanTicker.length > 5 then false
    else if !(cleanTicker.toList.all fun c => 'A' ≤ c && c ≤ 'Z') then false
    else true

/-- `formatTicker` (`js/utils.js` 35–38). -/
def formatTicker (ticker : String) : String :=
  if ticker = "" then "" else jsToUpper (jsTrim ticker)

/-! ## Live configuration (unnamed part_001, the `config.js` variant the live
`api.js` code uses: Finnhub endpoints, 30-minute cache, 20 requests/minute). -/

def CONFIG_CACHE_DURATION : Int := 30 * 60 * 1000

def CONFIG_MAX_REQUESTS_PER_MINUTE : Nat := 20

def CONFIG_CACHING_ENABLED : Bool := true

/-! ## `js/utils.js` — cache with per-entry TTL -/

structure CacheItem (α : Type) where
  data : α
  timestamp : Int
  ttl : Int
  deriving Repr, DecidableEq

/-- The global `cache` `Map`, modelled as an association list whose `lookup`
returns the live binding. -/
abbrev Cache (α : Type) : Type := List (String × CacheItem α)

/-- `Map.prototype.delete` / `clearCache(key)` (`js/utils.js` 82–88). -/
def clearCache {α : Type} (c : Cache α) (k : String) : Cache α :=
  List.filter (fun p => !(p.1 == k)) c

/-- `setCache` (`js/utils.js` 46–56): overwrite silently, stamping the entry
with the current time. -/
def setCache {α : Type} (now : Int) (c : Cache α) (k : String) (v : α)
    (ttl : Int := CONFIG_CACHE_DURATION) : Cache α :=
  if CONFIG_CACHING_ENABLED then (k, ⟨v, now, ttl⟩) :: clearCache c k else c

/-- `getCache` (`js/utils.js` 63–76): an entry older than its TTL is deleted on
access and reported absent.  Returns the value (if any) and the possibly
evicted cache. -/
def getCache {α : Type} (now : Int) (c : Cache α) (k : String) :
    Option α × Cache α :=
  if CONFIG_CACHING_ENABLED then
    match List.lookup k c with
    | none => (none, c)
    | some item =>
      if now - item.timestamp > item.ttl then (none, clearCache c k)
      else (some item.data, c)
  else (none, c)

/-! ## `js/utils.js` — fixed-window rate limiter -/

structure RateState where
  requestCount : Nat
  lastRequestTime : Int
  deriving Repr, DecidableEq

/-- `checkRateLimit` (`js/utils.js` 102–117): reset the counter when more than
a minute has passed since the window started, reject at the cap, otherwise
count the request. -/
def checkRateLimit (s : RateState) (now : Int) : Bool × RateState :=
  let s := if now - s.lastRequestTime > 60000 then ⟨0, now⟩ else s
  if s.requestCount ≥ CONFIG_MAX_REQUESTS_PER_MINUTE then (false, s)
  else (true, { s with requestCount := s.requestCount + 1 })

/-- Run `checkRateLimit` at each time in the list, collecting the returned
booleans and threading the limiter state. -/
def runRateCalls (s : RateState) : List Int → List Bool × RateState
  | [] => ([], s)
  | t :: ts =>
    let (b, s') := checkRateLimit s t
    let (bs, s'') := runRateCalls s' ts
    (b :: bs, s'')

/-! ## Number rendering (`Number.prototype.toFixed`, `Intl.NumberFormat`) -/

def padZeros (d : Nat) (s : String) : String :=
  String.mk (List.replicate (d - s.length) '0') ++ s

/-- `x.toFixed(d)` for a non-negative rational, rounding half away from zero
(ties cannot arise at the values this development evaluates). -/
def toFixedPos (d : Nat) (q : ℚ) : String :=
  let scaled : ℤ := ⌊q * (10 ^ d : ℚ) + 1 / 2⌋
  let ip : ℤ := scaled / (10 ^ d : ℤ)
  let fp : ℕ := (scaled % (10 ^ d : ℤ)).toNat
  if d = 0 then toString ip
  else toString ip ++ "." ++ padZeros d (toString fp)

def toFixedQ (d : Nat) (q : ℚ) : String :=
  if q < 0 then "-" ++ toFixedPos d (-q) else toFixedPos d q

/-- Insert a comma after every third digit; the input is the reversed digit
list of a natural number. -/
def grpGo : Nat → List Char → List Char
  | _, [] => []
  | k, c :: cs =>
    if k == 2 && cs != [] then c :: ',' :: grpGo 0 cs
    else c :: grpGo (k + 1) cs

def groupNat (n : Nat) : String :=
  String.mk ((grpGo 0 (toString n).toList.reverse).reverse)

/-- `Intl.NumberFormat('en-US', { style: 'currency', currency: 'USD' })` on a
non-negative amount: dollar sign, thousands separators, two decimals. -/
def intlUSDPos (q : ℚ) : String :=
  let scaled : ℤ := ⌊q * 100 + 1 / 2⌋
  groupNat (scaled / 100).toNat ++ "." ++ padZeros 2 (toString (scaled % 100).toNat)

def intlUSD (a : ℚ) : String :=
  if a < 0 then "-$" ++ intlUSDPos (-a) else "$" ++ intlUSDPos a

/-- `formatNumber` (`js/utils.js` 161–164): `null`/`undefined` render as the
`'N/A'` sentinel, numbers get thousands separators.  (The only caller feeds it
`parseInt`-produced integral volumes; the model renders the integer part.) -/
def formatNumber (num : Option ℚ) : String :=
  match num with
  | none => "N/A"
  | some q => if q < 0 then "-" ++ groupNat (-q).floor.toNat else groupNat q.floor.toNat

/-- `formatCurrency` (`js/utils.js` 172–179). -/
def formatCurrency (amount : Option ℚ) : String :=
  match amount with
  | none => "N/A"
  | some a => intlUSD a

/-- `formatPercentage` (`js/utils.js` 187–191). -/
def formatPercentage (value : Option ℚ) (decimals : Nat := 2) : String :=
  match value with
  | none => "N/A"
  | some v => toFixedQ decimals (v * 100) ++ "%"

/-- `truncateText` (`js/utils.js` 199–202). -/
def truncateText (text : String) (maxLength : Nat := 100) : String :=
  if text = "" || text.length ≤ maxLength then text
  else text.take maxLength ++ "..."

/-- `value || dflt` for JavaScript strings (empty string is falsy). -/
def jsOrStr (v : Option String) (dflt : String) : String :=
  match v with
  | some s => if s ≠ "" then s else dflt
  | none => dflt

/-! ## Raw provider payloads and processed shapes (`js/config.js` data section) -/

/-- Fields of the Finnhub `/stock/profile2` payload that the code reads. -/
structure FinnhubProfile where
  ticker : Option String
  name : Option String
  exchange : Option String
  currency : Option String
  country : Option String
  finnhubIndustry : Option String
  marketCapitalization : Option ℚ
  weburl : Option String
  logo : Option String
  ipo : Option String
  deriving Repr, DecidableEq

structure ProcessedProfile where
  symbol : String
  name : String
  description : String
  exchange : String
  currency : String
  country : String
  sector : String
  industry : String
  marketCap : Option ℚ
  peRatio : Option ℚ
  pbRatio : Option ℚ
  dividendYield : Option ℚ
  eps : Option ℚ
  beta : Option ℚ
  fiftyTwoWeekHigh : Option ℚ
  fiftyTwoWeekLow : Option ℚ
  volume : Option ℚ
  avgVolume : Option ℚ
  weburl : String
  logo : String
  ipo : String
  deriving Repr, DecidableEq

/-- `processFinnhubProfile` (`js/config.js` 56–84).  The `!data ||
Object.keys(data).length === 0` null/empty-object guard is the `none` case. -/
def processFinnhubProfile (data : Option FinnhubProfile) : Option ProcessedProfile :=
  match data with
  | none => none
  | some d =>
    some
      { symbol := jsOrStr d.ticker ""
        name := jsOrStr d.name ""
        description := jsOrStr d.name ""
        exchange := jsOrStr d.exchange ""
        currency := jsOrStr d.currency "USD"
        country := jsOrStr d.country ""
        sector := jsOrStr d.finnhubIndustry ""
        industry := jsOrStr d.finnhubIndustry ""
        marketCap := numField d.marketCapitalization
        peRatio := none
        pbRatio := none
        dividendYield := none
        eps := none
        beta := none
        fiftyTwoWeekHigh := none
        fiftyTwoWeekLow := none
        volume := none
        avgVolume := none
        weburl := jsOrStr d.weburl ""
        logo := jsOrStr d.logo ""
        ipo := jsOrStr d.ipo "" }

/-- Fields of the Finnhub `/quote` payload. -/
structure FinnhubQuote where
  c : Option ℚ
  d : Option ℚ
  dp : Option ℚ
  h : Option ℚ
  l : Option ℚ
  o : Option ℚ
  pc : Option ℚ
  deriving Repr, DecidableEq

structure ProcessedQuote where
  symbol : String
  price : Option ℚ
  change : Option ℚ
  changePercent : Option ℚ
  volume : Option ℚ
  high : Option ℚ
  low : Option ℚ
  openPrice : Option ℚ   -- the source field is named `open`, a Lean keyword
  previousClose : Option ℚ
  lastUpdated : String
  deriving Repr, DecidableEq

/-- `processFinnhubQuote` (`js/config.js` 123–140): each `data.x ?
parseFloat(data.x) : null` maps an absent **or zero** field to `null`. -/
def processFinnhubQuote (data : Option FinnhubQuote) (nowIso : String) :
    Option ProcessedQuote :=
  match data with
  | none => none
  | some d =>
    some
      { symbol := ""
        price := numField d.c
        change := numField d.d
        changePercent := numField d.dp
        volume := none
        high := numField d.h
        low := numField d.l
        openPrice := numField d.o
        previousClose := numField d.pc
        lastUpdated := nowIso }

/-! ## Sentiment scoring -/

structure Sentiment where
  score : Int
  sentiment : String
  deriving Repr, DecidableEq

/-- Word list of `analyzeSentiment` (`js/config.js` 252–256), verbatim
(including the duplicated `'strong'`). -/
def sentimentPositiveWords : List String :=
  ["positive", "growth", "increase", "up", "higher", "strong", "profit", "gain",
   "success", "win", "beat", "exceed", "surge", "rally", "bullish", "optimistic",
   "improve", "better", "excellent", "outperform", "upgrade", "buy", "strong"]

/-- Word list of `analyzeSentiment` (`js/config.js` 258–262), verbatim
(including the duplicated `'weak'`). -/
def sentimentNegativeWords : List String :=
  ["negative", "decline", "decrease", "down", "lower", "weak", "loss", "drop",
   "fail", "lose", "miss", "fall", "crash", "bearish", "pessimistic", "worse",
   "underperform", "downgrade", "sell", "weak", "concern", "risk", "volatile"]

/-- `analyzeSentiment` (`js/config.js` 249–278): split the lowercased text on
whitespace and count the tokens that are **exactly** a listed word. -/
def analyzeSentiment (text : String) : Sentiment :=
  if text = "" then ⟨0, "neutral"⟩
  else
    let words := jsSplitWs (jsToLower text)
    let positiveCount : Nat :=
      words.foldl (fun acc w => if sentimentPositiveWords.contains w then acc + 1 else acc) 0
    let negativeCount : Nat :=
      words.foldl (fun acc w => if sentimentNegativeWords.contains w then acc + 1 else acc) 0
    let score : Int := (positiveCount : Int) - (negativeCount : Int)
    if score > 0 then ⟨score, "positive"⟩
    else if score < 0 then ⟨score, "negative"⟩
    else ⟨score, "neutral"⟩

/-- Word list of `analyzeRedditSentiment` (unnamed part_000, 706–711). -/
def redditPositiveWords : List String :=
  ["positive", "growth", "increase", "up", "higher", "strong", "profit", "gain",
   "success", "win", "beat", "exceed", "surge", "rally", "bullish", "optimistic",
   "improve", "better", "excellent", "outperform", "upgrade", "buy", "strong",
   "moon", "🚀", "💎", "hodl", "diamond", "hands"]

/-- Word list of `analyzeRedditSentiment` (unnamed part_000, 713–717). -/
def redditNegativeWords : List String :=
  ["negative", "fall", "drop", "loss", "decline", "weak", "concern", "risk",
   "down", "lower", "crash", "bearish", "pessimistic", "worse", "sell",
   "dump", "paper", "hands", "💩", "📉"]

def countOccsStr (word text : String) : Nat := countOccs word.toList text.toList

/-- `analyzeRedditSentiment` (unnamed part_000, 703–740): per listed word, a
global regex counts its substring occurrences in the lowercased text. -/
def analyzeRedditSentiment (text : String) : Sentiment :=
  if text = "" then ⟨0, "neutral"⟩
  else
    let textLower := jsToLower text
    let positiveCount : Nat :=
      redditPositiveWords.foldl (fun acc w => acc + countOccsStr w textLower) 0
    let negativeCount : Nat :=
      redditNegativeWords.foldl (fun acc w => acc + countOccsStr w textLower) 0
    let score : Int := (positiveCount : Int) - (negativeCount : Int)
    if score > 0 then ⟨score, "positive"⟩
    else if score < 0 then ⟨score, "negative"⟩
    else ⟨score, "neutral"⟩

/-- The scoring rule exactly as the spec words it: "count occurrences of a
fixed positive-word list and a fixed negative-word list (case-insensitive,
substring match per word), score = positives − negatives".  Used to compare
the two analyzers against the spec's description. -/
def specSubstringScore (pos neg : List String) (text : String) : Int :=
  ((pos.map fun w => countOccsStr (jsToLower w) (jsToLower text)).sum : Int) -
    ((neg.map fun w => countOccsStr (jsToLower w) (jsToLower text)).sum : Int)

/-- The spec's three-way label partition at zero. -/
def specLabel (score : Int) : String :=
  if score > 0 then "positive" else if score < 0 then "negative" else "neutral"

/-- The matching rule `analyzeSentiment` actually implements: split on
whitespace, count tokens exactly equal to a listed word. -/
def specTokenScore (pos neg : List String) (text : String) : Int :=
  (((jsSplitWs (jsToLower text)).countP fun w => pos.contains w : Nat) : Int) -
    (((jsSplitWs (jsToLower text)).countP fun w => neg.contains w : Nat) : Int)

/-! ## Timeline construction (`js/config.js` 433–467)

Dates are integer millisecond timestamps: `new Date(article.publishedAt)`
and the subtraction-based comparator both reduce to the underlying
`getTime()` value. -/

structure NewsItem where
  title : String
  description : String
  url : String
  source : String
  publishedAt : Int
  sentiment : Sentiment
  category : String
  deriving Repr, DecidableEq

structure EarningsRow where
  symbol : String
  reportDate : Int
  estimate : Option ℚ
  actual : Option ℚ
  surprise : Option ℚ
  surprisePercent : Option ℚ
  period : String
  year : String
  deriving Repr, DecidableEq

/-- One timeline entry: the `{type: 'news', date, ...article}` and
`{type: 'earnings', date, ...earning}` objects pushed by `createTimeline`. -/
inductive TimelineEvent where
  | newsEv (date : Int) (item : NewsItem)
  | earningsEv (date : Int) (item : EarningsRow)
  deriving Repr, DecidableEq

def TimelineEvent.date : TimelineEvent → Int
  | .newsEv d _ => d
  | .earningsEv d _ => d

def newsToEvent (a : NewsItem) : TimelineEvent := .newsEv a.publishedAt a

def earningsToEvent (e : EarningsRow) : TimelineEvent := .earningsEv e.reportDate e

/-- Stable insertion for descending-by-date order: the inserted element goes
before every element whose date is not strictly larger, so equal dates keep
their original relative order. -/
def insertByDateDesc (x : TimelineEvent) : List TimelineEvent → List TimelineEvent
  | [] => [x]
  | y :: ys => if y.date > x.date then y :: insertByDateDesc x ys else x :: y :: ys

/-- `timeline.sort((a, b) => b.date - a.date)`: ECMAScript `Array.prototype.sort`
is stable, and a stable sort for a total preorder is unique — realised here as
stable insertion sort. -/
def sortByDateDesc : List TimelineEvent → List TimelineEvent
  | [] => []
  | x :: xs => insertByDateDesc x (sortByDateDesc xs)

/-- `createTimeline` (`js/config.js` 433–467): push one event per news item,
then one per earnings row, then sort newest-first. -/
def createTimeline (news : List NewsItem) (earnings : List EarningsRow := []) :
    List TimelineEvent :=
  sortByDateDesc (news.map newsToEvent ++ earnings.map earningsToEvent)

/-! ## Display formatting (`js/config.js` 474–494 and `js/ui.js` 647–660) -/

/-- The processed record handed to `formatStockDataForDisplay` (the shape
built by `TickerPage.processStockData`, `js/ui.js` 573–599). -/
structure ProcessedStockData where
  symbol : String
  overview : Option ProcessedProfile
  quote : Option ProcessedQuote
  news : Option (List NewsItem)
  lastUpdated : String
  deriving Repr, DecidableEq

structure DisplayData where
  symbol : String
  name : String
  price : String
  change : String
  changePercent : String
  isPositive : Bool
  isNegative : Bool
  marketCap : String
  peRatio : String
  volume : String
  description : String
  sector : String
  industry : String
  newsCount : Nat
  lastUpdated : String
  deriving Repr, DecidableEq

/-- `quote?.field` followed by a JavaScript truthiness test. -/
def quoteField (q : Option ProcessedQuote) (f : ProcessedQuote → Option ℚ) : Option ℚ :=
  match q with
  | none => none
  | some q => match f q with
    | none => none
    | some x => if x ≠ 0 then some x else none

/-- `formatStockDataForDisplay` (`js/config.js` 474–494): every absent or
falsy (zero) numeric input renders as the `'N/A'` sentinel. -/
def formatStockDataForDisplay (stockData : ProcessedStockData) : DisplayData :=
  let overview := stockData.overview
  let quote := stockData.quote
  let news := stockData.news
  { symbol := stockData.symbol
    name :=
      (match overview with
       | some ov => if ov.name ≠ "" then ov.name else stockData.symbol
       | none => stockData.symbol)
    price :=
      (match quoteField quote (fun q => q.price) with
       | some p => formatCurrency (some p)
       | none => "N/A")
    change :=
      (match quoteField quote (fun q => q.change) with
       | some c => formatCurrency (some c)
       | none => "N/A")
    changePercent :=
      (match quoteField quote (fun q => q.changePercent) with
       | some cp => formatPercentage (some (cp / 100)) 2
       | none => "N/A")
    isPositive :=
      (match quote with
       | some q => match q.change with
         | some c => decide (c > 0)
         | none => false
       | none => false)
    isNegative :=
      (match quote with
       | some q => match q.change with
         | some c => decide (c < 0)
         | none => false
       | none => false)
    marketCap :=
      (match overview with
       | some ov => match ov.marketCap with
         | some mc => if mc ≠ 0 then formatCurrency (some mc) else "N/A"
         | none => "N/A"
       | none => "N/A")
    peRatio :=
      (match overview with
       | some ov => match ov.peRatio with
         | some pe => if pe ≠ 0 then toFixedQ 2 pe else "N/A"
         | none => "N/A"
       | none => "N/A")
    volume :=
      (match quoteField quote (fun q => q.volume) with
       | some v => formatNumber (some v)
       | none => "N/A")
    description :=
      (match overview with
       | some ov => if ov.description ≠ "" then truncateText ov.description 200 else ""
       | none => "")
    sector :=
      (match overview with
       | some ov => if ov.sector ≠ "" then ov.sector else "N/A"
       | none => "N/A")
    industry :=
      (match overview with
       | some ov => if ov.industry ≠ "" then ov.industry else "N/A"
       | none => "N/A")
    newsCount := (match news with | some l => l.length | none => 0)
    lastUpdated := stockData.lastUpdated }

/-- The market-cap cell of `TickerPage.updateOverviewCards` (`js/ui.js`
647–660): Finnhub reports market capitalisation in **millions**, so a value of
at least `1e6` (million millions) is rendered in trillions, at least `1e3` in
billions, otherwise in millions; a missing or zero value stays `'N/A'`. -/
def formatMarketCapUI (marketCap : Option ℚ) : String :=
  match marketCap with
  | none => "N/A"
  | some mc =>
    if mc ≠ 0 then
      let marketCapValue := mc
      if marketCapValue ≥ 1000000 then
        "$" ++ toFixedQ 1 (marketCapValue / 1000000) ++ "T"
      else if marketCapValue ≥ 1000 then
        "$" ++ toFixedQ 1 (marketCapValue / 1000) ++ "B"
      else
        "$" ++ toFixedQ 1 marketCapValue ++ "M"
    else "N/A"

/-! ## API layer (`js/api.js` and unnamed part_000)

Network effects are passed in as explicit outcomes: a `FetchOutcome` is what
`fetch` + `response.json()` would have produced, and the mutable globals
(cache, rate limiter) are threaded through. -/

/-- The thrown `Error`s of the API layer, by message. -/
inductive ApiError where
  | mockDisabled            -- 'API calls are disabled in mock mode...'
  | internalRateLimit       -- 'Internal rate limit exceeded...'
  | apiRateLimit            -- 'API rate limit exceeded. Please try again later.'
  | httpError (status : Nat)
  | upstream (msg : String) -- provider error payloads rethrown
  | networkError (msg : String)
  deriving Repr, DecidableEq

/-- A raw news-provider article (fields are opaque to the logic modelled here). -/
structure RawArticle where
  title : String
  description : String
  url : String
  publishedAt : String
  deriving Repr, DecidableEq

structure SearchMatch where
  symbol : String
  name : String
  deriving Repr, DecidableEq

/-- Fields of an Alpha-Vantage-style payload that `searchCompanies` reads. -/
structure AVData where
  errorMessage : Option String        -- `data['Error Message']`
  note : Option String                -- `data['Note']` (HTTP-200 soft limit)
  bestMatches : Option (List SearchMatch)
  deriving Repr, DecidableEq

/-- The heterogeneous values the single global cache `Map` holds: cooldown
sentinel timestamps, provider payloads, article lists. -/
inductive CVal where
  | num (n : Int)
  | payload (p : AVData)
  | articles (l : List RawArticle)
  deriving Repr, DecidableEq

/-- JavaScript truthiness of a cached value (objects and arrays are always
truthy, a number is truthy iff nonzero). -/
def cvalTruthy : CVal → Bool
  | .num n => n ≠ 0
  | .payload _ => true
  | .articles _ => true

/-- Numeric coercion: `Date.now() - object` is `NaN`, and every comparison
with `NaN` is false, which the callers below reproduce on `none`. -/
def cvalToNumber : CVal → Option Int
  | .num n => some n
  | _ => none

def cvalErrorMessage : CVal → Option String
  | .payload p => p.errorMessage
  | _ => none

def cvalNote : CVal → Option String
  | .payload p => p.note
  | _ => none

/-- `data.bestMatches || []`. -/
def cvalBestMatches : CVal → List SearchMatch
  | .payload p => p.bestMatches.getD []
  | _ => []

/-- The keys `company_news_...` only ever store article lists. -/
def cvalAsArticles : CVal → List RawArticle
  | .articles l => l
  | _ => []

/-- What `fetch` + `response.json()` produced: a transport-level rejection, or
a response with its `ok` flag, status and parsed body. -/
inductive FetchOutcome (α : Type) where
  | reject (msg : String)
  | resp (ok : Bool) (status : Nat) (data : α)
  deriving Repr, DecidableEq

/-- Return shape of a modelled API call: the settled result, the cache and
rate-limiter state after the call, and whether a network request was made. -/
structure ApiResult (α : Type) where
  result : Except ApiError α
  cache : Cache CVal
  rate : RateState
  networkCalled : Bool

/-- `const rateLimitKey = 'rate_limit_' + cacheKey` (`js/api.js` 25). -/
def rateLimitKey (k : String) : String := "rate_limit_" ++ k

/-- `makeApiRequest`, stage 3 (`js/api.js` 46–69): perform the request, throw
on transport failure or a non-ok status, cache and return the body. -/
def apiFetchStage (cache : Cache CVal) (rate : RateState) (now : Int)
    (fetchOutcome : FetchOutcome AVData) (cacheKey : Option String) : ApiResult CVal :=
  match fetchOutcome with
  | .reject msg => ⟨.error (.networkError msg), cache, rate, true⟩
  | .resp ok status data =>
    if !ok then ⟨.error (.httpError status), cache, rate, true⟩
    else
      let cache :=
        match cacheKey with
        | some k => setCache now cache k (.payload data)
        | none => cache
      ⟨.ok (.payload data), cache, rate, true⟩

/-- `makeApiRequest`, stage 2 (`js/api.js` 38–44): a truthy cached value is
returned without a network call. -/
def apiCacheStage (cache : Cache CVal) (rate : RateState) (now : Int)
    (fetchOutcome : FetchOutcome AVData) (cacheKey : Option String) : ApiResult CVal :=
  match cacheKey with
  | some k =>
    let g := getCache now cache k
    match g.1 with
    | some v =>
      if cvalTruthy v then ⟨.ok v, g.2, rate, false⟩
      else apiFetchStage g.2 rate now fetchOutcome cacheKey
    | none => apiFetchStage g.2 rate now fetchOutcome cacheKey
  | none => apiFetchStage cache rate now fetchOutcome cacheKey

/-- `makeApiRequest`, stage 1 (`js/api.js` 23–36): a cooldown sentinel younger
than one minute aborts the request; an older one is cleared on the way
through. -/
def apiCooldownStage (cache : Cache CVal) (rate : RateState) (now : Int)
    (fetchOutcome : FetchOutcome AVData) (cacheKey : Option String) : ApiResult CVal :=
  match cacheKey with
  | some k =>
    let g := getCache now cache (rateLimitKey k)
    match g.1 with
    | some v =>
      if cvalTruthy v then
        match cvalToNumber v with
        | some ts =>
          if now - ts < 60000 then ⟨.error .apiRateLimit, g.2, rate, false⟩
          else apiCacheStage (clearCache g.2 (rateLimitKey k)) rate now fetchOutcome cacheKey
        | none => apiCacheStage (clearCache g.2 (rateLimitKey k)) rate now fetchOutcome cacheKey
      else apiCacheStage g.2 rate now fetchOutcome cacheKey
    | none => apiCacheStage g.2 rate now fetchOutcome cacheKey
  | none => apiCacheStage cache rate now fetchOutcome cacheKey

/-- `makeApiRequest` (`js/api.js` 10–75).  `mockActive` stands for
`CONFIG.MOCK_MODE && typeof MockData !== 'undefined'`. -/
def makeApiRequest (mockActive : Bool) (cache : Cache CVal) (rate : RateState)
    (now : Int) (fetchOutcome : FetchOutcome AVData) (cacheKey : Option String) :
    ApiResult CVal :=
  if mockActive then ⟨.error .mockDisabled, cache, rate, false⟩
  else
    let rl := checkRateLimit rate now
    if rl.1 then apiCooldownStage cache rl.2 now fetchOutcome cacheKey
    else ⟨.error .internalRateLimit, cache, rl.2, false⟩

/-- `'company_search_' + keywords.toLowerCase().replace(/\s+/g, '_')`
(`js/api.js` 350). -/
def searchCompaniesCacheKey (keywords : String) : String :=
  "company_search_" ++ jsCollapseWs (jsToLower keywords)

/-- `searchCompanies` (`js/api.js` 349–374): an HTTP-200 body carrying a
`Note` field is the provider's soft rate limit — store a cooldown sentinel
under `rate_limit_<cacheKey>` for one minute and throw. -/
def searchCompanies (mockActive : Bool) (cache : Cache CVal) (rate : RateState)
    (now : Int) (fetchOutcome : FetchOutcome AVData) (keywords : String) :
    ApiResult (List SearchMatch) :=
  let cacheKey := searchCompaniesCacheKey keywords
  let r := makeApiRequest mockActive cache rate now fetchOutcome (some cacheKey)
  match r.result with
  | .error e => ⟨.error e, r.cache, r.rate, r.networkCalled⟩
  | .ok data =>
    if jsStrTruthy (cvalErrorMessage data) then
      ⟨.error (.upstream ((cvalErrorMessage data).getD "")), r.cache, r.rate, r.networkCalled⟩
    else if jsStrTruthy (cvalNote data) then
      let cache := setCache now r.cache (rateLimitKey cacheKey) (.num now) 60000
      ⟨.error .apiRateLimit, cache, r.rate, r.networkCalled⟩
    else
      ⟨.ok (cvalBestMatches data), r.cache, r.rate, r.networkCalled⟩

/-- Body of a News API response. -/
structure NewsApiData where
  status : Option String
  message : Option String
  articles : Option (List RawArticle)
  deriving Repr, DecidableEq

/-- `getCompanyNews` after the cache check (unnamed part_000, 222–270): try
Reddit; on any Reddit failure fall through to the News API; any failure of
both lands in the outer catch, which returns `[]` instead of throwing. -/
def getCompanyNewsAfterCache (cache : Cache CVal) (rate : RateState) (now : Int)
    (cacheKey : String) (redditOutcome : Except String (List RawArticle))
    (newsFetch : FetchOutcome NewsApiData) :
    List RawArticle × Cache CVal × RateState :=
  let rl := checkRateLimit rate now
  if !rl.1 then ([], cache, rl.2)      -- thrown, then swallowed by the catch-all
  else
    match redditOutcome with
    | .ok redditPosts =>
      (redditPosts, setCache now cache cacheKey (.articles redditPosts), rl.2)
    | .error _ =>
      match newsFetch with
      | .reject _ => ([], cache, rl.2)
      | .resp ok _status data =>
        if !ok then ([], cache, rl.2)
        else if data.status == some "error" then ([], cache, rl.2)
        else
          let articles := data.articles.getD []
          (articles, setCache now cache cacheKey (.articles articles), rl.2)

/-- `` `company_news_${formattedSymbol}_${pageSize}` `` (unnamed part_000, 210). -/
def companyNewsCacheKey (symbol : String) (pageSize : Nat) : String :=
  "company_news_" ++ formatTicker symbol ++ "_" ++ toString pageSize

/-- `getCompanyNews` (unnamed part_000, 206–271).  `redditOutcome` is what
`getRedditNews` settles to, `newsFetch` what the News API `fetch` produces. -/
def getCompanyNews (cache : Cache CVal) (rate : RateState) (now : Int)
    (symbol : String) (pageSize : Nat) (companyName : Option String)
    (redditOutcome : Except String (List RawArticle))
    (newsFetch : FetchOutcome NewsApiData) :
    List RawArticle × Cache CVal × RateState :=
  let formattedSymbol := formatTicker symbol
  let cacheKey := companyNewsCacheKey symbol pageSize
  let _searchTerm := jsOrStr companyName formattedSymbol  -- feeds only the request URL
  let g := getCache now cache cacheKey
  match g.1 with
  | some v =>
    if cvalTruthy v then (cvalAsArticles v, g.2, rate)
    else getCompanyNewsAfterCache g.2 rate now cacheKey redditOutcome newsFetch
  | none => getCompanyNewsAfterCache g.2 rate now cacheKey redditOutcome newsFetch

/-! ## The aggregator (`getComprehensiveStockData`, unnamed part_000 426–469) -/

/-- A provider call issued by the aggregator, with its arguments. -/
inductive SubFetch where
  | profileCall (symbol : String)
  | quoteCall (symbol : String)
  | financialsCall (symbol : String)
  | earningsCall (symbol : String)
  | newsCall (symbol : String) (pageSize : Nat) (companyName : String)
  deriving Repr, DecidableEq

/-- The combined record the aggregator returns; the financials and earnings
payloads are opaque to it. -/
structure StockRecord (F E : Type) where
  symbol : String
  overview : FinnhubProfile
  quote : Option FinnhubQuote
  basicFinancials : Option F
  earnings : Option E
  news : List RawArticle
  lastUpdated : String

/-- `getComprehensiveStockData` (unnamed part_000, 426–469): fetch the profile
first (fatal on failure); then `Promise.allSettled` over quote, financials,
earnings and news, each fulfilled value merged and each rejection degraded to
`null` (news: `[]`).  The returned list records the provider calls issued,
with their arguments. -/
def getComprehensiveStockData {F E : Type} (symbol : String)
    (profileRes : Except ApiError FinnhubProfile)
    (quoteRes : Except ApiError FinnhubQuote)
    (finRes : Except ApiError F)
    (earnRes : Except ApiError E)
    (newsRes : Except ApiError (List RawArticle))
    (nowIso : String) :
    Except ApiError (StockRecord F E) × List SubFetch :=
  let formattedSymbol := formatTicker symbol
  match profileRes with
  | .error e => (.error e, [.profileCall formattedSymbol])
  | .ok profile =>
    let companyName := jsOrStr profile.name formattedSymbol
    (.ok
      { symbol := formattedSymbol
        overview := profile
        quote := (match quoteRes with | .ok v => some v | .error _ => none)
        basicFinancials := (match finRes with | .ok v => some v | .error _ => none)
        earnings := (match earnRes with | .ok v => some v | .error _ => none)
        news := (match newsRes with | .ok l => l | .error _ => [])
        lastUpdated := nowIso },
     [.profileCall formattedSymbol, .quoteCall formattedSymbol,
      .financialsCall formattedSymbol, .earningsCall formattedSymbol,
      .newsCall formattedSymbol 5 companyName])

/-! ## Lookup lemmas for the cache model -/

theorem lookup_clearCache_self {α : Type} (c : Cache α) (k : String) :
    List.lookup k (clearCache c k) = none := by
  induction c with
  | nil => rfl
  | cons p ps ih =>
    cases p with
    | mk a b =>
      simp only [clearCache] at ih ⊢
      by_cases h : a = k
      · rw [List.filter_cons, if_neg (by simp [h])]
        exact ih
      · rw [List.filter_cons, if_pos (by simp [h])]
        have hb : (k == a) = false := by
          simp only [beq_eq_false_iff_ne]; exact Ne.symm h
        simp only [List.lookup, hb]
        exact ih

theorem lookup_clearCache_ne {α : Type} (c : Cache α) {k k' : String} (h : k' ≠ k) :
    List.lookup k' (clearCache c k) = List.lookup k' c := by
  induction c with
  | nil => rfl
  | cons p ps ih =>
    cases p with
    | mk a b =>
      simp only [clearCache] at ih ⊢
      by_cases hp : a = k
      · have hk' : (k' == a) = false := by
          simp only [beq_eq_false_iff_ne]; rw [hp]; exact h
        rw [List.filter_cons, if_neg (by simp [hp])]
        simp only [List.lookup, hk']
        exact ih
      · rw [List.filter_cons, if_pos (by simp [hp])]
        by_cases hk : k' = a
        · have hk2 : (k' == a) = true := by simp [beq_iff_eq, hk]
          simp only [List.lookup, hk2]
        · have hk2 : (k' == a) = false := by simp [beq_iff_eq, hk]
          simp only [List.lookup, hk2]
          exact ih

theorem lookup_setCache_self {α : Type} (now : Int) (c : Cache α) (k : String)
    (v : α) (ttl : Int) :
    List.lookup k (setCache now c k v ttl) = some ⟨v, now, ttl⟩ := by
  simp [setCache, CONFIG_CACHING_ENABLED, List.lookup]

theorem lookup_setCache_ne {α : Type} (now : Int) (c : Cache α) {k k' : String}
    (v : α) (ttl : Int) (h : k' ≠ k) :
    List.lookup k' (setCache now c k v ttl) = List.lookup k' c := by
  have hb : (k' == k) = false := by simp [beq_iff_eq, h]
  simp only [setCache, CONFIG_CACHING_ENABLED, if_true, List.lookup, hb]
  exact lookup_clearCache_ne c h

/-! ## Claim C6 — cache round-trip and read-time expiry -/

/-- **C6.** For every key, value and (non-negative) TTL: a `getCache`
immediately after `setCache` returns the value; once the clock exceeds the
TTL past the `set`, `getCache` reports the entry absent *and* removes it on
that access, leaving a cache in which the key is unbound — indistinguishable
from one in which it was never stored. -/
theorem cache_roundtrip_and_expiry {α : Type} (c : Cache α) (k : String) (v : α)
    (ttl now now' : Int) (httl : 0 ≤ ttl) (hexp : now' - now > ttl) :
    (getCache now (setCache now c k v ttl) k).1 = some v ∧
    getCache now' (setCache now c k v ttl) k
      = (none, clearCache (setCache now c k v ttl) k) ∧
    List.lookup k (getCache now' (setCache now c k v ttl) k).2 = none := by
  have hlk := lookup_setCache_self now c k v ttl
  refine ⟨?_, ?_, ?_⟩
  · simp only [getCache, CONFIG_CACHING_ENABLED, if_true, hlk]
    rw [if_neg (by omega)]
  · simp only [getCache, CONFIG_CACHING_ENABLED, if_true, hlk]
    rw [if_pos hexp]
  · simp only [getCache, CONFIG_CACHING_ENABLED, if_true, hlk]
    rw [if_pos hexp]
    exact lookup_clearCache_self _ k

/-- Witness for C6 at a concrete instantiation. -/
theorem cache_roundtrip_and_expiry_witness :
    (getCache 1000 (setCache 1000 ([] : Cache Nat) "k" 7 3000) "k").1 = some 7 ∧
    getCache 4001 (setCache 1000 ([] : Cache Nat) "k" 7 3000) "k"
      = (none, clearCache (setCache 1000 ([] : Cache Nat) "k" 7 3000) "k") ∧
    List.lookup "k" (getCache 4001 (setCache 1000 ([] : Cache Nat) "k" 7 3000) "k").2 = none :=
  cache_roundtrip_and_expiry ([] : Cache Nat) "k" 7 3000 1000 4001
    (by decide) (by decide)

/-! ## Claim C7 — fixed-window rate limiter -/

/-- From a window that started at `t0` with `k` requests already counted,
every further call not more than a minute after `t0` is admitted and counted,
as long as the cap is not reached. -/
theorem runRateCalls_within (t0 : Int) (ts : List Int) :
    ∀ (k : Nat), (∀ t ∈ ts, t - t0 ≤ 60000) →
      k + ts.length ≤ CONFIG_MAX_REQUESTS_PER_MINUTE →
      runRateCalls ⟨k, t0⟩ ts = (List.replicate ts.length true, ⟨k + ts.length, t0⟩) := by
  induction ts with
  | nil => intro k _ _; simp [runRateCalls]
  | cons t ts ih =>
    intro k hts hcap
    have h1 : ¬ t - t0 > 60000 := by
      have := hts t (List.mem_cons_self t ts)
      omega
    have h2 : ¬ k ≥ CONFIG_MAX_REQUESTS_PER_MINUTE := by
      simp only [List.length_cons] at hcap
      omega
    have hstep : checkRateLimit ⟨k, t0⟩ t = (true, ⟨k + 1, t0⟩) := by
      simp [checkRateLimit, h1, h2]
    have hrest := ih (k + 1) (fun u hu => hts u (List.mem_cons_of_mem t hu))
      (by simp only [List.length_cons] at hcap; omega)
    have harith : k + 1 + ts.length = k + (ts.length + 1) := by omega
    simp [runRateCalls, hstep, hrest, List.length_cons, List.replicate_succ, harith]

/-- **C7.** Starting from an expired (fresh) window: the first call at `t0`
resets the window and is admitted; the next 19 calls within 60 s of `t0` are
admitted, for exactly `MAX_REQUESTS_PER_MINUTE = 20` admissions; one further
call inside the window is refused; a call more than 60 s after `t0` is
admitted again. -/
theorem rateLimiter_fixed_window (s0 : RateState) (t0 : Int) (ts : List Int)
    (tBlock tRoll : Int)
    (hfresh : t0 - s0.lastRequestTime > 60000)
    (hlen : ts.length = 19)
    (hts : ∀ t ∈ ts, t - t0 ≤ 60000)
    (hblock : tBlock - t0 ≤ 60000)
    (hroll : tRoll - t0 > 60000) :
    checkRateLimit s0 t0 = (true, ⟨1, t0⟩) ∧
    runRateCalls ⟨1, t0⟩ ts = (List.replicate 19 true, ⟨20, t0⟩) ∧
    (checkRateLimit ⟨20, t0⟩ tBlock).1 = false ∧
    (checkRateLimit ⟨20, t0⟩ tRoll).1 = true := by
  refine ⟨?_, ?_, ?_, ?_⟩
  · simp [checkRateLimit, hfresh, CONFIG_MAX_REQUESTS_PER_MINUTE]
  · have := runRateCalls_within t0 ts 1 hts
      (by unfold CONFIG_MAX_REQUESTS_PER_MINUTE; omega)
    simpa [hlen] using this
  · have h1 : ¬ tBlock - t0 > 60000 := by omega
    simp [checkRateLimit, h1, CONFIG_MAX_REQUESTS_PER_MINUTE]
  · simp [checkRateLimit, hroll, CONFIG_MAX_REQUESTS_PER_MINUTE]

/-- Witness for C7: 20 admissions at the window start, refusal on the 21st,
admission after rollover. -/
theorem rateLimiter_fixed_window_witness :
    checkRateLimit ⟨0, 0⟩ 100000 = (true, ⟨1, 100000⟩) ∧
    runRateCalls ⟨1, 100000⟩ (List.replicate 19 130000)
      = (List.replicate 19 true, ⟨20, 100000⟩) ∧
    (checkRateLimit ⟨20, 100000⟩ 160000).1 = false ∧
    (checkRateLimit ⟨20, 100000⟩ 200000).1 = true :=
  rateLimiter_fixed_window ⟨0, 0⟩ 100000 (List.replicate 19 130000) 160000 200000
    (by decide) (by decide) (by decide) (by decide) (by decide)

/-! ## Claim C5 — timeline construction -/

theorem insertByDateDesc_perm (x : TimelineEvent) (l : List TimelineEvent) :
    (insertByDateDesc x l).Perm (x :: l) := by
  induction l with
  | nil => exact List.Perm.refl _
  | cons y ys ih =>
    by_cases h : y.date > x.date
    · rw [insertByDateDesc, if_pos h]
      exact (ih.cons y).trans (List.Perm.swap x y ys)
    · rw [insertByDateDesc, if_neg h]

theorem insertByDateDesc_sorted (x : TimelineEvent) (l : List TimelineEvent)
    (h : l.Pairwise (fun a b => b.date ≤ a.date)) :
    (insertByDateDesc x l).Pairwise (fun a b => b.date ≤ a.date) := by
  induction l with
  | nil => simp [insertByDateDesc]
  | cons y ys ih =>
    rcases List.pairwise_cons.mp h with ⟨hy, hys⟩
    by_cases hc : y.date > x.date
    · rw [insertByDateDesc, if_pos hc]
      refine List.pairwise_cons.mpr ⟨?_, ih hys⟩
      intro z hz
      rcases List.mem_cons.mp ((insertByDateDesc_perm x ys).mem_iff.mp hz) with
        rfl | hzys
      · omega
      · exact hy z hzys
    · rw [insertByDateDesc, if_neg hc]
      refine List.pairwise_cons.mpr ⟨?_, h⟩
      intro z hz
      rcases List.mem_cons.mp hz with rfl | hzys
      · omega
      · have := hy z hzys; omega

theorem insertByDateDesc_filter (x : TimelineEvent) (l : List TimelineEvent)
    (d : Int) :
    (insertByDateDesc x l).filter (fun e => decide (e.date = d))
      = (if x.date = d then x :: l.filter (fun e => decide (e.date = d))
         else l.filter (fun e => decide (e.date = d))) := by
  induction l with
  | nil => simp [insertByDateDesc, List.filter_cons]
  | cons y ys ih =>
    by_cases hc : y.date > x.date
    · rw [insertByDateDesc, if_pos hc]
      by_cases hy : y.date = d
      · have hx : ¬ x.date = d := by omega
        simp [List.filter_cons, ih, hy, hx]
      · simp [List.filter_cons, ih, hy]
    · rw [insertByDateDesc, if_neg hc]
      simp [List.filter_cons]

theorem sortByDateDesc_perm (l : List TimelineEvent) :
    (sortByDateDesc l).Perm l := by
  induction l with
  | nil => exact List.Perm.refl _
  | cons x xs ih =>
    exact (insertByDateDesc_perm x (sortByDateDesc xs)).trans (ih.cons x)

theorem sortByDateDesc_sorted (l : List TimelineEvent) :
    (sortByDateDesc l).Pairwise (fun a b => b.date ≤ a.date) := by
  induction l with
  | nil => simp [sortByDateDesc]
  | cons x xs ih => exact insertByDateDesc_sorted x _ ih

theorem sortByDateDesc_filter (l : List TimelineEvent) (d : Int) :
    (sortByDateDesc l).filter (fun e => decide (e.date = d))
      = l.filter (fun e => decide (e.date = d)) := by
  induction l with
  | nil => rfl
  | cons x xs ih =>
    rw [sortByDateDesc, insertByDateDesc_filter, ih, List.filter_cons]
    by_cases hx : x.date = d
    · rw [if_pos hx, if_pos (by simp [hx])]
    · rw [if_neg hx, if_neg (by simp [hx])]

/-- News item dated 2024-01-10T00:00Z (milliseconds since the epoch). -/
def exNews0110 : NewsItem :=
  ⟨"news of Jan 10", "", "", "", 1704844800000, ⟨0, "neutral"⟩, "general"⟩

/-- News item dated 2024-01-15T00:00Z. -/
def exNews0115 : NewsItem :=
  ⟨"news of Jan 15", "", "", "", 1705276800000, ⟨0, "neutral"⟩, "general"⟩

/-- Earnings report dated 2024-01-12T00:00Z. -/
def exEarn0112 : EarningsRow :=
  ⟨"AAPL", 1705017600000, some 2, some 2, none, none, "Q4", "2023"⟩

/-- **C5.** `createTimeline` returns exactly one dated event per news item and
one per earnings report (a permutation of the wrapped union), sorted
descending by date; ties keep the original order (stability, expressed as:
filtering the output at any fixed date gives the same list as filtering the
input union); the spec's concrete example [2024-01-10, 2024-01-15] news +
[2024-01-12] earnings yields [2024-01-15, 2024-01-12, 2024-01-10]. -/
theorem createTimeline_ordering :
    (∀ (news : List NewsItem) (earnings : List EarningsRow),
      (createTimeline news earnings).Perm
        (news.map newsToEvent ++ earnings.map earningsToEvent) ∧
      (createTimeline news earnings).Pairwise (fun a b => b.date ≤ a.date) ∧
      (∀ d : Int,
        (createTimeline news earnings).filter (fun e => decide (e.date = d))
          = (news.map newsToEvent ++ earnings.map earningsToEvent).filter
              (fun e => decide (e.date = d)))) ∧
    createTimeline [exNews0110, exNews0115] [exEarn0112]
      = [newsToEvent exNews0115, earningsToEvent exEarn0112, newsToEvent exNews0110] := by
  refine ⟨fun news earnings => ⟨?_, ?_, ?_⟩, ?_⟩
  · exact sortByDateDesc_perm _
  · exact sortByDateDesc_sorted _
  · intro d; exact sortByDateDesc_filter _ d
  · rfl

/-! ## Claim C4 — sentiment scoring -/

theorem foldl_add_count (f : String → Nat) (l : List String) (n : Nat) :
    l.foldl (fun acc w => acc + f w) n = n + (l.map f).sum := by
  induction l generalizing n with
  | nil => simp
  | cons w ws ih =>
    simp only [List.foldl_cons, List.map_cons, List.sum_cons, ih]
    omega

theorem foldl_contains_count (ws l : List String) (n : Nat) :
    l.foldl (fun acc w => if ws.contains w then acc + 1 else acc) n
      = n + l.countP (fun w => ws.contains w) := by
  induction l generalizing n with
  | nil => simp [List.countP]; rfl
  | cons w l ih =>
    by_cases h : ws.contains w
    · rw [List.foldl_cons, if_pos h, ih, List.countP_cons, if_pos h]
      omega
    · rw [List.foldl_cons, if_neg h, ih, List.countP_cons, if_neg h]
      omega

theorem sentimentTriple_score (s : Int) :
    (if s > 0 then (⟨s, "positive"⟩ : Sentiment)
     else if s < 0 then ⟨s, "negative"⟩ else ⟨s, "neutral"⟩).score = s := by
  split_ifs <;> rfl

theorem sentimentTriple_label (s : Int) :
    (if s > 0 then (⟨s, "positive"⟩ : Sentiment)
     else if s < 0 then ⟨s, "negative"⟩ else ⟨s, "neutral"⟩).sentiment
      = specLabel s := by
  unfold specLabel; split_ifs <;> rfl

/-- **C4 (counterexample).** The claim says the score counts substring
occurrences; but `analyzeSentiment` — the scorer of the news pipeline — only
counts whole whitespace-delimited tokens: on `"gains"` it scores 0 (neutral)
although the positive list's `"gain"` occurs in it as a substring, so the
claimed substring rule would score 1 (positive). -/
theorem sentiment_substring_counterexample :
    analyzeSentiment "gains" = ⟨0, "neutral"⟩ ∧
    specSubstringScore sentimentPositiveWords sentimentNegativeWords "gains" = 1 ∧
    specLabel 1 = "positive" := by
  refine ⟨by decide, by decide, rfl⟩

/-- **C4 (amended).** Both analyzers score `positives − negatives` over fixed
word lists with the three-way label partition at zero (empty text scores 0,
neutral); but the matching rule differs per analyzer:
`analyzeRedditSentiment` counts case-insensitive substring occurrences, while
`analyzeSentiment` splits on whitespace and counts only tokens exactly equal
to a listed word. -/
theorem sentiment_scoring_amended :
    (∀ text : String,
      (analyzeRedditSentiment text).score
        = specSubstringScore redditPositiveWords redditNegativeWords text ∧
      (analyzeRedditSentiment text).sentiment
        = specLabel (analyzeRedditSentiment text).score) ∧
    (∀ text : String,
      (analyzeSentiment text).score
        = specTokenScore sentimentPositiveWords sentimentNegativeWords text ∧
      (analyzeSentiment text).sentiment
        = specLabel (analyzeSentiment text).score) ∧
    ((analyzeSentiment "great growth and strong profit").score > 0 ∧
     (analyzeSentiment "great growth and strong profit").sentiment = "positive" ∧
     (analyzeSentiment "crash decline weak loss").score < 0 ∧
     (analyzeSentiment "crash decline weak loss").sentiment = "negative" ∧
     analyzeSentiment "" = ⟨0, "neutral"⟩ ∧
     analyzeRedditSentiment "" = ⟨0, "neutral"⟩) := by
  have hlowPos : ∀ w ∈ redditPositiveWords, jsToLower w = w := by decide
  have hlowNeg : ∀ w ∈ redditNegativeWords, jsToLower w = w := by decide
  refine ⟨fun text => ⟨?_, ?_⟩, fun text => ⟨?_, ?_⟩, ?_⟩
  · by_cases h : text = ""
    · subst h; decide
    · simp only [analyzeRedditSentiment, if_neg h]
      rw [sentimentTriple_score]
      rw [foldl_add_count, foldl_add_count, Nat.zero_add, Nat.zero_add]
      unfold specSubstringScore
      rw [List.map_congr_left
            (fun w hw => by rw [hlowPos w hw] :
              ∀ w ∈ redditPositiveWords,
                countOccsStr (jsToLower w) (jsToLower text) = countOccsStr w (jsToLower text)),
          List.map_congr_left
            (fun w hw => by rw [hlowNeg w hw] :
              ∀ w ∈ redditNegativeWords,
                countOccsStr (jsToLower w) (jsToLower text) = countOccsStr w (jsToLower text))]
  · by_cases h : text = ""
    · subst h; decide
    · simp only [analyzeRedditSentiment, if_neg h]
      rw [sentimentTriple_label, sentimentTriple_score]
  · by_cases h : text = ""
    · subst h; decide
    · simp only [analyzeSentiment, if_neg h]
      rw [sentimentTriple_score]
      rw [foldl_contains_count sentimentPositiveWords (jsSplitWs (jsToLower text)) 0,
          foldl_contains_count sentimentNegativeWords (jsSplitWs (jsToLower text)) 0,
          Nat.zero_add, Nat.zero_add]
      rfl
  · by_cases h : text = ""
    · subst h; decide
    · simp only [analyzeSentiment, if_neg h]
      rw [sentimentTriple_label, sentimentTriple_score]
  · refine ⟨by decide, by decide, by decide, by decide, by decide, by decide⟩

/-! ## Claim C2 — ticker validation -/

/-- The spec's ticker grammar `^[A-Z]{1,5}$` on the normalised (trimmed,
uppercased) string. -/
def specTickerGrammar (s : String) : Prop :=
  1 ≤ s.length ∧ s.length ≤ 5 ∧ ∀ c ∈ s.toList, 'A' ≤ c ∧ c ≤ 'Z'

instance (s : String) : Decidable (specTickerGrammar s) := by
  unfold specTickerGrammar; infer_instance

def exceptIsOk {ε α : Type} : Except ε α → Bool
  | .ok _ => true
  | .error _ => false

/-- A concrete Finnhub profile payload. -/
def exProfile : FinnhubProfile :=
  ⟨some "AAPL", some "Example Inc", some "NASDAQ", some "USD", some "US",
   some "Technology", some 3000000, some "https://example.com", some "", some "1980-12-12"⟩

/-- A concrete Finnhub quote payload. -/
def exQuote : FinnhubQuote :=
  ⟨some 190, some 2, some 1, some 195, some 188, some 189, some 188⟩

/-- **C2 (counterexample).** `"12!"` fails the ticker grammar, yet
`getComprehensiveStockData` still issues every provider fetch for it —
starting with the profile fetch — and returns a record instead of failing
fast with an `InvalidTicker` error: the aggregator performs no ticker
validation at all. -/
theorem ticker_validation_counterexample :
    isValidTicker "12!" = false ∧
    (getComprehensiveStockData (F := Unit) (E := Unit) "12!" (.ok exProfile)
        (.ok exQuote) (.ok ()) (.ok ()) (.ok []) "2024-01-01T00:00:00Z").2
      = [.profileCall "12!", .quoteCall "12!", .financialsCall "12!",
         .earningsCall "12!", .newsCall "12!" 5 "Example Inc"] ∧
    exceptIsOk (getComprehensiveStockData (F := Unit) (E := Unit) "12!"
        (.ok exProfile) (.ok exQuote) (.ok ()) (.ok ()) (.ok [])
        "2024-01-01T00:00:00Z").1 = true := by
  refine ⟨by decide, by decide, by decide⟩

/-- **C2 (amended).** `isValidTicker` accepts exactly the strings whose
trimmed, uppercased form matches `^[A-Z]{1,5}$` (so `"aapl"` is accepted and
`formatTicker` normalises it to `"AAPL"`, while `""`, over-long and
non-alphabetic inputs are rejected); but `getComprehensiveStockData` itself
never validates: for every input string — matching the grammar or not — it
issues the profile fetch first and never fails with a validation error. -/
theorem ticker_validation_amended :
    (∀ s : String, isValidTicker s = true ↔ specTickerGrammar (jsToUpper (jsTrim s))) ∧
    isValidTicker "aapl" = true ∧
    formatTicker "aapl" = "AAPL" ∧
    isValidTicker "" = false ∧
    isValidTicker "ABCDEF" = false ∧
    isValidTicker "AAP1" = false ∧
    isValidTicker "AA PL" = false ∧
    (∀ {F E : Type} (ticker : String) (pr : Except ApiError FinnhubProfile)
        (qr : Except ApiError FinnhubQuote) (fr : Except ApiError F)
        (er : Except ApiError E) (nr : Except ApiError (List RawArticle))
        (iso : String),
      ((getComprehensiveStockData ticker pr qr fr er nr iso).2).head?
        = some (.profileCall (formatTicker ticker))) := by
  refine ⟨?_, by decide, by decide, by decide, by decide, by decide, by decide, ?_⟩
  · intro s
    by_cases h : s = ""
    · subst h; decide
    · simp only [isValidTicker, specTickerGrammar, if_neg h]
      constructor
      · intro htrue
        by_cases h1 : (((jsToUpper (jsTrim s)).length < 1 ||
            (jsToUpper (jsTrim s)).length > 5)) = true
        · rw [if_pos h1] at htrue; exact absurd htrue (by simp)
        · rw [if_neg h1] at htrue
          by_cases h2 : (!((jsToUpper (jsTrim s)).toList.all
              fun c => 'A' ≤ c && c ≤ 'Z')) = true
          · rw [if_pos h2] at htrue; exact absurd htrue (by simp)
          · simp only [Bool.or_eq_true, decide_eq_true_eq, not_or] at h1
            have hall : ((jsToUpper (jsTrim s)).toList.all
                fun c => 'A' ≤ c && c ≤ 'Z') = true := by
              revert h2; cases ((jsToUpper (jsTrim s)).toList.all
                fun c => 'A' ≤ c && c ≤ 'Z') <;> simp
            refine ⟨by omega, by omega, ?_⟩
            intro c hc
            have := List.all_eq_true.mp hall c hc
            simpa [Bool.and_eq_true, decide_eq_true_eq] using this
      · rintro ⟨hg1, hg2, hg3⟩
        have h1 : (((jsToUpper (jsTrim s)).length < 1 ||
            (jsToUpper (jsTrim s)).length > 5)) = false := by
          simp only [Bool.or_eq_false_iff, decide_eq_false_iff_not]
          omega
        rw [h1, if_neg (by simp)]
        have h2 : ((jsToUpper (jsTrim s)).toList.all
            fun c => 'A' ≤ c && c ≤ 'Z') = true := by
          rw [List.all_eq_true]
          intro c hc
          have := hg3 c hc
          simpa [Bool.and_eq_true, decide_eq_true_eq] using this
        rw [h2]
        simp
  · intro F E ticker pr qr fr er nr iso
    cases pr <;> rfl

/-- Witness for the universally quantified parts of the amended C2. -/
theorem ticker_validation_amended_witness :
    isValidTicker "msft" = true ∧
    ((getComprehensiveStockData (F := Unit) (E := Unit) "msft" (.ok exProfile)
        (.ok exQuote) (.ok ()) (.ok ()) (.ok []) "t").2).head?
      = some (.profileCall (formatTicker "msft")) :=
  ⟨(ticker_validation_amended.1 "msft").mpr (by decide),
   ticker_validation_amended.2.2.2.2.2.2.2 "msft" (.ok exProfile) (.ok exQuote)
     (.ok ()) (.ok ()) (.ok []) "t"⟩

/-! ## Claim C9 — market-cap unit conversion -/

theorem formatMarketCapUI_3T : formatMarketCapUI (some 3000000) = "$3.0T" := by
  have hne : (3000000 : ℚ) ≠ 0 := by norm_num
  have hge : (3000000 : ℚ) ≥ 1000000 := by norm_num
  have hdiv : (3000000 : ℚ) / 1000000 = 3 := by norm_num
  rw [formatMarketCapUI, if_pos hne, if_pos hge, hdiv]
  have hfloor : (⌊(3 : ℚ) * 10 ^ (1 : Nat) + 1 / 2⌋ : ℤ) = 30 := by norm_num
  rw [toFixedQ, if_neg (by norm_num), toFixedPos, hfloor]
  rfl

/-- **C9.** The profile's market capitalisation arrives in millions and the
display converts to absolute units: a processed profile whose raw
`marketCapitalization` is `3000000` (million) renders as `"$3.0T"` — three
trillion — and not as `"$3.0B"`; in general every value of at least `1e6`
million is rendered with the trillions suffix by dividing by `1e6`. -/
theorem marketCap_millions_display (p : FinnhubProfile)
    (h : p.marketCapitalization = some 3000000) :
    (∃ pp, processFinnhubProfile (some p) = some pp ∧
      pp.marketCap = some 3000000 ∧
      formatMarketCapUI pp.marketCap = "$3.0T" ∧
      formatMarketCapUI pp.marketCap ≠ "$3.0B") ∧
    ∀ v : ℚ, 1000000 ≤ v →
      formatMarketCapUI (some v) = "$" ++ toFixedQ 1 (v / 1000000) ++ "T" := by
  constructor
  · refine ⟨_, rfl, ?_, ?_, ?_⟩
    · show numField p.marketCapitalization = some 3000000
      rw [h]
      simp [numField]
    · show formatMarketCapUI (numField p.marketCapitalization) = "$3.0T"
      rw [h, show numField (some 3000000) = some 3000000 from by simp [numField]]
      exact formatMarketCapUI_3T
    · show formatMarketCapUI (numField p.marketCapitalization) ≠ "$3.0B"
      rw [h, show numField (some 3000000) = some 3000000 from by simp [numField],
        formatMarketCapUI_3T]
      decide
  · intro v hv
    have hne : v ≠ 0 := by intro h0; rw [h0] at hv; norm_num at hv
    rw [formatMarketCapUI, if_pos hne, if_pos hv]

/-- Witness for C9 at a concrete profile. -/
theorem marketCap_millions_display_witness :
    (∃ pp, processFinnhubProfile (some exProfile) = some pp ∧
      pp.marketCap = some 3000000 ∧
      formatMarketCapUI pp.marketCap = "$3.0T" ∧
      formatMarketCapUI pp.marketCap ≠ "$3.0B") ∧
    ∀ v : ℚ, 1000000 ≤ v →
      formatMarketCapUI (some v) = "$" ++ toFixedQ 1 (v / 1000000) ++ "T" :=
  marketCap_millions_display exProfile rfl

/-! ## Claim C10 — a zero at the interface is indistinguishable from absent -/

/-- **C10.** `processFinnhubQuote` maps every zero-valued quote field (price,
change, change-percent, high, low, open, previous close) to `null`, and
`formatStockDataForDisplay` renders a zero or missing price, change,
change-percent, volume, market cap or P/E as the `'N/A'` sentinel — exactly
as if the field were absent. -/
theorem zero_indistinguishable_from_absent :
    (∀ (r : FinnhubQuote) (nowIso : String), ∃ q,
      processFinnhubQuote (some r) nowIso = some q ∧
      (r.c = some 0 → q.price = none) ∧
      (r.d = some 0 → q.change = none) ∧
      (r.dp = some 0 → q.changePercent = none) ∧
      (r.h = some 0 → q.high = none) ∧
      (r.l = some 0 → q.low = none) ∧
      (r.o = some 0 → q.openPrice = none) ∧
      (r.pc = some 0 → q.previousClose = none)) ∧
    (∀ (sd : ProcessedStockData) (q : ProcessedQuote), sd.quote = some q →
      ((q.price = none ∨ q.price = some 0) →
        (formatStockDataForDisplay sd).price = "N/A") ∧
      ((q.change = none ∨ q.change = some 0) →
        (formatStockDataForDisplay sd).change = "N/A") ∧
      ((q.changePercent = none ∨ q.changePercent = some 0) →
        (formatStockDataForDisplay sd).changePercent = "N/A") ∧
      ((q.volume = none ∨ q.volume = some 0) →
        (formatStockDataForDisplay sd).volume = "N/A")) ∧
    (∀ (sd : ProcessedStockData) (ov : ProcessedProfile), sd.overview = some ov →
      ((ov.marketCap = none ∨ ov.marketCap = some 0) →
        (formatStockDataForDisplay sd).marketCap = "N/A") ∧
      ((ov.peRatio = none ∨ ov.peRatio = some 0) →
        (formatStockDataForDisplay sd).peRatio = "N/A")) := by
  refine ⟨?_, ?_, ?_⟩
  · intro r nowIso
    refine ⟨_, rfl, ?_, ?_, ?_, ?_, ?_, ?_, ?_⟩ <;>
      · intro h
        show numField _ = none
        rw [h]
        simp [numField]
  · intro sd q hq
    have hqf : ∀ f : ProcessedQuote → Option ℚ,
        (f q = none ∨ f q = some 0) → quoteField sd.quote f = none := by
      intro f hf
      rw [hq]
      rcases hf with h0 | h0 <;> simp [quoteField, h0]
    refine ⟨?_, ?_, ?_, ?_⟩
    · intro hf
      simp only [formatStockDataForDisplay]
      rw [hqf (fun q => q.price) hf]
    · intro hf
      simp only [formatStockDataForDisplay]
      rw [hqf (fun q => q.change) hf]
    · intro hf
      simp only [formatStockDataForDisplay]
      rw [hqf (fun q => q.changePercent) hf]
    · intro hf
      simp only [formatStockDataForDisplay]
      rw [hqf (fun q => q.volume) hf]
  · intro sd ov hov
    constructor
    · intro hf
      simp only [formatStockDataForDisplay, hov]
      rcases hf with h0 | h0 <;> simp [h0]
    · intro hf
      simp only [formatStockDataForDisplay, hov]
      rcases hf with h0 | h0 <;> simp [h0]

/-- A concrete raw quote whose every numeric field is zero. -/
def exZeroQuote : FinnhubQuote :=
  ⟨some 0, some 0, some 0, some 0, some 0, some 0, some 0⟩

/-- A concrete processed record whose quote and overview hold only zeroes. -/
def exZeroStockData : ProcessedStockData :=
  { symbol := "AAPL"
    overview := some
      { symbol := "AAPL", name := "Apple", description := "", exchange := ""
        currency := "USD", country := "", sector := "", industry := ""
        marketCap := some 0, peRatio := some 0, pbRatio := none
        dividendYield := none, eps := none, beta := none
        fiftyTwoWeekHigh := none, fiftyTwoWeekLow := none, volume := none
        avgVolume := none, weburl := "", logo := "", ipo := "" }
    quote := some
      { symbol := "", price := some 0, change := some 0, changePercent := some 0
        volume := some 0, high := some 0, low := some 0, openPrice := some 0
        previousClose := some 0, lastUpdated := "t" }
    news := some []
    lastUpdated := "t" }

/-- Witness for C10 at the all-zero quote and record. -/
theorem zero_indistinguishable_from_absent_witness :
    (∃ q, processFinnhubQuote (some exZeroQuote) "t" = some q ∧
      (exZeroQuote.c = some 0 → q.price = none) ∧
      (exZeroQuote.d = some 0 → q.change = none) ∧
      (exZeroQuote.dp = some 0 → q.changePercent = none) ∧
      (exZeroQuote.h = some 0 → q.high = none) ∧
      (exZeroQuote.l = some 0 → q.low = none) ∧
      (exZeroQuote.o = some 0 → q.openPrice = none) ∧
      (exZeroQuote.pc = some 0 → q.previousClose = none)) ∧
    ((formatStockDataForDisplay exZeroStockData).price = "N/A" ∧
     (formatStockDataForDisplay exZeroStockData).change = "N/A" ∧
     (formatStockDataForDisplay exZeroStockData).changePercent = "N/A" ∧
     (formatStockDataForDisplay exZeroStockData).volume = "N/A") ∧
    ((formatStockDataForDisplay exZeroStockData).marketCap = "N/A" ∧
     (formatStockDataForDisplay exZeroStockData).peRatio = "N/A") := by
  obtain ⟨h1, h2, h3⟩ := zero_indistinguishable_from_absent
  refine ⟨h1 exZeroQuote "t", ?_, ?_⟩
  · obtain ⟨hp, hc, hcp, hv⟩ :=
      h2 exZeroStockData
        { symbol := "", price := some 0, change := some 0, changePercent := some 0
          volume := some 0, high := some 0, low := some 0, openPrice := some 0
          previousClose := some 0, lastUpdated := "t" } rfl
    exact ⟨hp (Or.inr rfl), hc (Or.inr rfl), hcp (Or.inr rfl), hv (Or.inr rfl)⟩
  · obtain ⟨hm, hpe⟩ :=
      h3 exZeroStockData
        { symbol := "AAPL", name := "Apple", description := "", exchange := ""
          currency := "USD", country := "", sector := "", industry := ""
          marketCap := some 0, peRatio := some 0, pbRatio := none
          dividendYield := none, eps := none, beta := none
          fiftyTwoWeekHigh := none, fiftyTwoWeekLow := none, volume := none
          avgVolume := none, weburl := "", logo := "", ipo := "" } rfl
    exact ⟨hm (Or.inr rfl), hpe (Or.inr rfl)⟩

/-! ## Claim C1 — aggregation tolerates partial failure -/

/-- **C1.** When the profile fetch succeeds, `getComprehensiveStockData`
returns normally whatever the other four sub-fetches did: the record carries
the fetched profile, each of quote/financials/earnings is the fulfilled value
or `null` on rejection, and news degrades to `[]` on rejection. -/
theorem aggregator_partial_failure {F E : Type} (symbol : String)
    (p : FinnhubProfile) (quoteRes : Except ApiError FinnhubQuote)
    (finRes : Except ApiError F) (earnRes : Except ApiError E)
    (newsRes : Except ApiError (List RawArticle)) (nowIso : String) :
    ∃ r : StockRecord F E,
      (getComprehensiveStockData symbol (.ok p) quoteRes finRes earnRes newsRes
          nowIso).1 = .ok r ∧
      r.overview = p ∧
      r.quote = quoteRes.toOption ∧
      r.basicFinancials = finRes.toOption ∧
      r.earnings = earnRes.toOption ∧
      r.news = (newsRes.toOption).getD [] := by
  refine ⟨_, rfl, rfl, ?_, ?_, ?_, ?_⟩
  · cases quoteRes <;> rfl
  · cases finRes <;> rfl
  · cases earnRes <;> rfl
  · cases newsRes <;> rfl

/-! ## Claim C3 — news fallback ordering -/

theorem getCache_of_lookup_none {α : Type} (now : Int) (c : Cache α)
    (k : String) (h : List.lookup k c = none) : getCache now c k = (none, c) := by
  simp [getCache, CONFIG_CACHING_ENABLED, h]

/-- **C3.** With a cold cache and the limiter admitting: if the primary
(Reddit) source fails for any reason, `getCompanyNews` returns the secondary
(News API) provider's article list (`data.articles || []`); if the secondary
also fails — transport rejection, non-ok HTTP status, or an error-status
body — the call returns `[]` instead of propagating an error; and if the
primary succeeds, its posts are returned without consulting the secondary. -/
theorem news_fallback (cache : Cache CVal) (rate : RateState) (now : Int)
    (symbol : String) (pageSize : Nat) (companyName : Option String)
    (redditErr : String)
    (hmiss : List.lookup (companyNewsCacheKey symbol pageSize) cache = none)
    (hallow : (checkRateLimit rate now).1 = true) :
    (∀ (d : NewsApiData) (st : Nat), d.status ≠ some "error" →
      (getCompanyNews cache rate now symbol pageSize companyName
          (.error redditErr) (.resp true st d)).1 = d.articles.getD []) ∧
    (∀ msg, (getCompanyNews cache rate now symbol pageSize companyName
        (.error redditErr) (.reject msg)).1 = []) ∧
    (∀ (d : NewsApiData) (st : Nat),
      (getCompanyNews cache rate now symbol pageSize companyName
          (.error redditErr) (.resp false st d)).1 = []) ∧
    (∀ (d : NewsApiData) (st : Nat), d.status = some "error" →
      (getCompanyNews cache rate now symbol pageSize companyName
          (.error redditErr) (.resp true st d)).1 = []) ∧
    (∀ (posts : List RawArticle) (nf : FetchOutcome NewsApiData),
      (getCompanyNews cache rate now symbol pageSize companyName
          (.ok posts) nf).1 = posts) := by
  have hgc := getCache_of_lookup_none now cache (companyNewsCacheKey symbol pageSize) hmiss
  refine ⟨?_, ?_, ?_, ?_, ?_⟩
  · intro d st hne
    have hb : (d.status == some "error") = false := by
      simp only [beq_eq_false_iff_ne]; exact hne
    simp [getCompanyNews, hgc, getCompanyNewsAfterCache, hallow, hb]
  · intro msg
    simp [getCompanyNews, hgc, getCompanyNewsAfterCache, hallow]
  · intro d st
    simp [getCompanyNews, hgc, getCompanyNewsAfterCache, hallow]
  · intro d st herr
    have hb : (d.status == some "error") = true := by simp [herr]
    simp [getCompanyNews, hgc, getCompanyNewsAfterCache, hallow, hb]
  · intro posts nf
    simp [getCompanyNews, hgc, getCompanyNewsAfterCache, hallow]

/-- Witness for C3 with a cold cache and a fresh limiter. -/
theorem news_fallback_witness :
    (∀ (d : NewsApiData) (st : Nat), d.status ≠ some "error" →
      (getCompanyNews [] ⟨0, 0⟩ 1000 "AAPL" 5 (some "Apple Inc")
          (.error "reddit down") (.resp true st d)).1 = d.articles.getD []) ∧
    (∀ msg, (getCompanyNews [] ⟨0, 0⟩ 1000 "AAPL" 5 (some "Apple Inc")
        (.error "reddit down") (.reject msg)).1 = []) ∧
    (∀ (d : NewsApiData) (st : Nat),
      (getCompanyNews [] ⟨0, 0⟩ 1000 "AAPL" 5 (some "Apple Inc")
          (.error "reddit down") (.resp false st d)).1 = []) ∧
    (∀ (d : NewsApiData) (st : Nat), d.status = some "error" →
      (getCompanyNews [] ⟨0, 0⟩ 1000 "AAPL" 5 (some "Apple Inc")
          (.error "reddit down") (.resp true st d)).1 = []) ∧
    (∀ (posts : List RawArticle) (nf : FetchOutcome NewsApiData),
      (getCompanyNews [] ⟨0, 0⟩ 1000 "AAPL" 5 (some "Apple Inc")
          (.ok posts) nf).1 = posts) :=
  news_fallback [] ⟨0, 0⟩ 1000 "AAPL" 5 (some "Apple Inc") "reddit down"
    (by decide) (by decide)

/-! ## Claim C8 — per-request cooldown after a provider-reported soft limit -/

theorem getCache_of_lookup_live {α : Type} (now : Int) (c : Cache α) (k : String)
    (it : CacheItem α) (h : List.lookup k c = some it)
    (hlive : ¬ now - it.timestamp > it.ttl) :
    getCache now c k = (some it.data, c) := by
  simp [getCache, CONFIG_CACHING_ENABLED, h, hlive]

theorem getCache_of_lookup_expired {α : Type} (now : Int) (c : Cache α) (k : String)
    (it : CacheItem α) (h : List.lookup k c = some it)
    (hexp : now - it.timestamp > it.ttl) :
    getCache now c k = (none, clearCache c k) := by
  simp [getCache, CONFIG_CACHING_ENABLED, h, hexp]

theorem rateLimitKey_ne (k : String) : rateLimitKey k ≠ k := by
  intro h
  have hl := congrArg String.length h
  rw [rateLimitKey, String.length_append] at hl
  have h11 : ("rate_limit_" : String).length = 11 := rfl
  omega

/-- **C8.** After `searchCompanies` receives an HTTP-200 body with a `Note`
field at time `ts` (on a cold cache with the limiter admitting), it fails
with the rate-limit error and stores the cooldown sentinel `ts` under
`rate_limit_<cacheKey>` with a 60 s TTL.  From the resulting state: any
`makeApiRequest` with that cache key less than 60 s after `ts` fails with the
rate-limit error without a network call, even though the global limiter
admits it; once at least 60 s have elapsed, the sentinel is gone from the
resulting cache and the request is no longer refused by the cooldown — and if
the cached payload has expired too, the network request is actually made. -/
theorem cooldown_per_request (cache : Cache CVal) (rate rate2 rate3 : RateState)
    (ts now now' : Int) (keywords : String) (d : AVData)
    (fo2 fo3 : FetchOutcome AVData)
    (hnote : jsStrTruthy d.note = true)
    (herr : jsStrTruthy d.errorMessage = false)
    (hrl0 : List.lookup (rateLimitKey (searchCompaniesCacheKey keywords)) cache = none)
    (hdk0 : List.lookup (searchCompaniesCacheKey keywords) cache = none)
    (hallow1 : (checkRateLimit rate ts).1 = true)
    (hallow2 : (checkRateLimit rate2 now).1 = true)
    (hallow3 : (checkRateLimit rate3 now').1 = true)
    (hts : ts ≠ 0)
    (hblock : now - ts < 60000)
    (hpast : now' - ts ≥ 60000) :
    (searchCompanies false cache rate ts (.resp true 200 d) keywords).result
      = .error .apiRateLimit ∧
    List.lookup (rateLimitKey (searchCompaniesCacheKey keywords))
        (searchCompanies false cache rate ts (.resp true 200 d) keywords).cache
      = some ⟨.num ts, ts, 60000⟩ ∧
    (makeApiRequest false
        (searchCompanies false cache rate ts (.resp true 200 d) keywords).cache
        rate2 now fo2 (some (searchCompaniesCacheKey keywords))).result
      = .error .apiRateLimit ∧
    (makeApiRequest false
        (searchCompanies false cache rate ts (.resp true 200 d) keywords).cache
        rate2 now fo2 (some (searchCompaniesCacheKey keywords))).networkCalled
      = false ∧
    (makeApiRequest false
        (searchCompanies false cache rate ts (.resp true 200 d) keywords).cache
        rate3 now' fo3 (some (searchCompaniesCacheKey keywords))).result
      ≠ .error .apiRateLimit ∧
    List.lookup (rateLimitKey (searchCompaniesCacheKey keywords))
        (makeApiRequest false
          (searchCompanies false cache rate ts (.resp true 200 d) keywords).cache
          rate3 now' fo3 (some (searchCompaniesCacheKey keywords))).cache
      = none ∧
    (now' - ts > CONFIG_CACHE_DURATION →
      (makeApiRequest false
          (searchCompanies false cache rate ts (.resp true 200 d) keywords).cache
          rate3 now' fo3 (some (searchCompaniesCacheKey keywords))).networkCalled
        = true) := by
  set key := searchCompaniesCacheKey keywords with hkeydef
  have hne : rateLimitKey key ≠ key := rateLimitKey_ne key
  have hne' : key ≠ rateLimitKey key := Ne.symm hne
  -- Step 1: the inner `makeApiRequest` of `searchCompanies` fetches and caches.
  have hm1 : makeApiRequest false cache rate ts (.resp true 200 d) (some key)
      = ⟨.ok (.payload d), setCache ts cache key (.payload d) CONFIG_CACHE_DURATION,
         (checkRateLimit rate ts).2, true⟩ := by
    simp [makeApiRequest, apiCooldownStage, apiCacheStage, apiFetchStage, hallow1,
      getCache_of_lookup_none ts cache (rateLimitKey key) hrl0,
      getCache_of_lookup_none ts cache key hdk0]
  -- Step 2: `searchCompanies` sees the `Note`, stores the sentinel and throws.
  have hr1 : searchCompanies false cache rate ts (.resp true 200 d) keywords
      = ⟨.error .apiRateLimit,
         setCache ts (setCache ts cache key (.payload d) CONFIG_CACHE_DURATION)
           (rateLimitKey key) (.num ts) 60000,
         (checkRateLimit rate ts).2, true⟩ := by
    simp [searchCompanies, ← hkeydef, hm1, cvalErrorMessage, cvalNote, herr, hnote]
  rw [hr1]
  set c1 : Cache CVal := setCache ts cache key (.payload d) CONFIG_CACHE_DURATION with hc1
  set r1cache : Cache CVal :=
    setCache ts c1 (rateLimitKey key) (.num ts) 60000 with hr1cache
  have hlkSent : List.lookup (rateLimitKey key) r1cache
      = some ⟨.num ts, ts, 60000⟩ := lookup_setCache_self ts c1 (rateLimitKey key) _ 60000
  have hlkData : List.lookup key r1cache
      = some ⟨.payload d, ts, CONFIG_CACHE_DURATION⟩ := by
    rw [hr1cache, lookup_setCache_ne ts c1 (.num ts) 60000 hne', hc1]
    exact lookup_setCache_self ts cache key _ CONFIG_CACHE_DURATION
  -- Step 3: within the cooldown the request is refused without a fetch.
  have hgB : getCache now r1cache (rateLimitKey key) = (some (.num ts), r1cache) :=
    getCache_of_lookup_live now r1cache (rateLimitKey key) _ hlkSent
      (by simp only; omega)
  have htb : cvalTruthy (.num ts) = true := by simp [cvalTruthy, hts]
  have hmB : makeApiRequest false r1cache rate2 now fo2 (some key)
      = ⟨.error .apiRateLimit, r1cache, (checkRateLimit rate2 now).2, false⟩ := by
    simp [makeApiRequest, apiCooldownStage, hallow2, hgB, htb, cvalToNumber, hblock]
  -- Step 4: once the cooldown has elapsed, the sentinel is cleared.
  have hstage : makeApiRequest false r1cache rate3 now' fo3 (some key)
      = apiCacheStage (clearCache r1cache (rateLimitKey key))
          (checkRateLimit rate3 now').2 now' fo3 (some key) := by
    by_cases hc : now' - ts > 60000
    · have hgC : getCache now' r1cache (rateLimitKey key)
          = (none, clearCache r1cache (rateLimitKey key)) :=
        getCache_of_lookup_expired now' r1cache (rateLimitKey key) _ hlkSent
          (by simp only; omega)
      simp [makeApiRequest, apiCooldownStage, hallow3, hgC]
    · have hgC : getCache now' r1cache (rateLimitKey key)
          = (some (.num ts), r1cache) :=
        getCache_of_lookup_live now' r1cache (rateLimitKey key) _ hlkSent
          (by simp only; omega)
      have hnb : ¬ now' - ts < 60000 := by omega
      simp [makeApiRequest, apiCooldownStage, hallow3, hgC, htb, cvalToNumber, hnb]
  have hlkData2 : List.lookup key (clearCache r1cache (rateLimitKey key))
      = some ⟨.payload d, ts, CONFIG_CACHE_DURATION⟩ := by
    rw [lookup_clearCache_ne _ hne']
    exact hlkData
  have hlkSent2 : List.lookup (rateLimitKey key)
      (clearCache r1cache (rateLimitKey key)) = none :=
    lookup_clearCache_self _ _
  have hC : (makeApiRequest false r1cache rate3 now' fo3 (some key)).result
        ≠ .error .apiRateLimit ∧
      List.lookup (rateLimitKey key)
        (makeApiRequest false r1cache rate3 now' fo3 (some key)).cache = none ∧
      (now' - ts > CONFIG_CACHE_DURATION →
        (makeApiRequest false r1cache rate3 now' fo3 (some key)).networkCalled
          = true) := by
    rw [hstage]
    by_cases hc2 : now' - ts > CONFIG_CACHE_DURATION
    · have hgd : getCache now' (clearCache r1cache (rateLimitKey key)) key
          = (none, clearCache (clearCache r1cache (rateLimitKey key)) key) :=
        getCache_of_lookup_expired now' _ key _ hlkData2 (by simp only; omega)
      have hlk3 : List.lookup (rateLimitKey key)
          (clearCache (clearCache r1cache (rateLimitKey key)) key) = none := by
        rw [lookup_clearCache_ne _ hne]
        exact hlkSent2
      cases fo3 with
      | reject msg => simp [apiCacheStage, hgd, apiFetchStage, hlk3]
      | resp ok st d3 =>
        cases ok with
        | false => simp [apiCacheStage, hgd, apiFetchStage, hlk3]
        | true =>
          simp [apiCacheStage, hgd, apiFetchStage, hlk3,
            lookup_setCache_ne now' _ (CVal.payload d3) CONFIG_CACHE_DURATION hne]
    · have hgd : getCache now' (clearCache r1cache (rateLimitKey key)) key
          = (some (.payload d), clearCache r1cache (rateLimitKey key)) :=
        getCache_of_lookup_live now' _ key _ hlkData2 (by simp only; omega)
      simp [apiCacheStage, hgd, cvalTruthy, hlkSent2, hc2]
  exact ⟨rfl, hlkSent, by rw [hmB], by rw [hmB], hC.1, hC.2.1, hC.2.2⟩

/-- Witness for C8 at a fully concrete scenario. -/
theorem cooldown_per_request_witness :
    (searchCompanies false [] ⟨0, 0⟩ 1000
        (.resp true 200 ⟨none, some "Note: call limit", some []⟩) "IBM").result
      = .error .apiRateLimit ∧
    List.lookup (rateLimitKey (searchCompaniesCacheKey "IBM"))
        (searchCompanies false [] ⟨0, 0⟩ 1000
          (.resp true 200 ⟨none, some "Note: call limit", some []⟩) "IBM").cache
      = some ⟨.num 1000, 1000, 60000⟩ ∧
    (makeApiRequest false
        (searchCompanies false [] ⟨0, 0⟩ 1000
          (.resp true 200 ⟨none, some "Note: call limit", some []⟩) "IBM").cache
        ⟨0, 0⟩ 30000 (.resp true 200 ⟨none, none, some []⟩)
        (some (searchCompaniesCacheKey "IBM"))).result
      = .error .apiRateLimit ∧
    (makeApiRequest false
        (searchCompanies false [] ⟨0, 0⟩ 1000
          (.resp true 200 ⟨none, some "Note: call limit", some []⟩) "IBM").cache
        ⟨0, 0⟩ 30000 (.resp true 200 ⟨none, none, some []⟩)
        (some (searchCompaniesCacheKey "IBM"))).networkCalled
      = false ∧
    (makeApiRequest false
        (searchCompanies false [] ⟨0, 0⟩ 1000
          (.resp true 200 ⟨none, some "Note: call limit", some []⟩) "IBM").cache
        ⟨0, 0⟩ 2000000 (.resp true 200 ⟨none, none, some []⟩)
        (some (searchCompaniesCacheKey "IBM"))).result
      ≠ .error .apiRateLimit ∧
    List.lookup (rateLimitKey (searchCompaniesCacheKey "IBM"))
        (makeApiRequest false
          (searchCompanies false [] ⟨0, 0⟩ 1000
            (.resp true 200 ⟨none, some "Note: call limit", some []⟩) "IBM").cache
          ⟨0, 0⟩ 2000000 (.resp true 200 ⟨none, none, some []⟩)
          (some (searchCompaniesCacheKey "IBM"))).cache
      = none ∧
    ((2000000 : Int) - 1000 > CONFIG_CACHE_DURATION →
      (makeApiRequest false
          (searchCompanies false [] ⟨0, 0⟩ 1000
            (.resp true 200 ⟨none, some "Note: call limit", some []⟩) "IBM").cache
          ⟨0, 0⟩ 2000000 (.resp true 200 ⟨none, none, some []⟩)
          (some (searchCompaniesCacheKey "IBM"))).networkCalled
        = true) :=
  cooldown_per_request [] ⟨0, 0⟩ ⟨0, 0⟩ ⟨0, 0⟩ 1000 30000 2000000 "IBM"
    ⟨none, some "Note: call limit", some []⟩
    (.resp true 200 ⟨none, none, some []⟩) (.resp true 200 ⟨none, none, some []⟩)
    (by decide) (by decide) (by decide) (by decide) (by decide) (by decide)
    (by decide) (by decide) (by decide) (by decide)

end NoCharts
